import Mathlib

/-!
Verification development for the mobx-blocks library.

The embedding translates the TypeScript sources into Lean:
* `Pagination` and `CacheItem` come from `src/lib/Cache/Cache.item.ts`.
* `Collection` comes from `Collection.ts`.
* `Sorting`, `CursorPagination` and the `util` helpers (`timeDeltaInMinutes`,
  `uuid`) are not part of the sources; they are modelled from the
  specification and marked as such in their doc comments.

JavaScript runtime behaviour that matters to the code is made explicit:
truthiness tests (`if (page)`, `!this.totalCount`, `data.id || uuid()`),
`Map`/object-spread merge semantics, and the presence/absence of object
fields (modelled with `Option`).
-/

/-- A primitive JavaScript value, as stored in filter maps and query
parameter objects. -/
inductive QVal where
  | str (s : String)
  | int (n : Int)
  | bool (b : Bool)
  | null
deriving DecidableEq, Repr

/-- JavaScript truthiness of a primitive value: `""`, `0`, `false` and
`null` are falsy. -/
def QVal.truthy : QVal → Bool
  | .str s => s ≠ ""
  | .int n => n ≠ 0
  | .bool b => b
  | .null => false

/-- JavaScript `toString()` on a primitive value. -/
def QVal.jsToString : QVal → String
  | .str s => s
  | .int n => toString n
  | .bool b => if b then "true" else "false"
  | .null => "null"

/-- A JavaScript `Map` with string keys (also used for plain objects):
an association list in insertion order. -/
abbrev FMap : Type := List (String × QVal)

/-- `Map.get` / property lookup: the value at a key, if present. -/
def FMap.lookup (m : FMap) (k : String) : Option QVal :=
  (List.find? (fun e => e.1 = k) m).map (·.2)

/-- `Map.set(k, v)`: update the value in place if the key exists
(keeping its position), otherwise append the new entry. -/
def FMap.set (m : FMap) (k : String) (v : QVal) : FMap :=
  if List.any m (fun e => e.1 = k)
  then List.map (fun e => if e.1 = k then (k, v) else e) m
  else m ++ [(k, v)]

/-- mobx `ObservableMap.merge(obj)` / object spread: set every entry of
`obj` into `m`, in `obj`'s iteration order. -/
def FMap.merge (m obj : FMap) : FMap :=
  List.foldl (fun acc e => FMap.set acc e.1 e.2) m obj

/-- `Map.delete(k)`: remove all entries with the given key. -/
def FMap.del (m : FMap) (k : String) : FMap :=
  List.filter (fun e => e.1 ≠ k) m

/-- `Object.fromEntries` / `ObservableMap.replace`: rebuild a map from a
list of entries, later duplicate keys overwriting earlier ones. -/
def FMap.fromEntries (obj : FMap) : FMap :=
  FMap.merge ([] : FMap) obj

/-- The value of the LAST entry for a key, matching the overwrite
behaviour of merging an entry list into a map. -/
def FMap.lookupLast : FMap → String → Option QVal
  | [], _ => none
  | e :: t, k =>
    match FMap.lookupLast t k with
    | some v => some v
    | none => if e.1 = k then some e.2 else none

-- ====================================================================
-- Pagination (from src: second section of Cache.item.ts)
-- ====================================================================

/-- State of the offset `Pagination` component. `totalCount` starts
`none` (the TypeScript field is `totalCount?: number`). -/
structure Pagination where
  page : Int := 1
  pageSize : Int := 20
  totalCount : Option Int := none
deriving DecidableEq, Repr

namespace Pagination

/-- The constructor: `page = 1`, `pageSize = 20` overridden by a truthy
`props.pageSize`, `totalCount` unset. -/
def new (pageSize? : Option Int) : Pagination :=
  { pageSize :=
      match pageSize? with
      | some ps => if ps ≠ 0 then ps else 20
      | none => 20 }

/-- The `canGoToNext` getter: `!this.totalCount` is true both when
`totalCount` is undefined and when it is `0`. -/
def canGoToNext (p : Pagination) : Bool :=
  match p.totalCount with
  | none => true
  | some t => if t = 0 then true else decide (p.page * p.pageSize < t)

/-- The `params` getter. -/
def params (p : Pagination) : FMap :=
  [("page", QVal.int p.page), ("pageSize", QVal.int p.pageSize)]

/-- The `init(page?, pageSize?)` method: `if (page) this.page = page`
only overwrites with truthy (present and nonzero) arguments. -/
def init (p : Pagination) (page? pageSize? : Option Int) : Pagination :=
  let p1 :=
    match page? with
    | some pg => if pg ≠ 0 then { p with page := pg } else p
    | none => p
  match pageSize? with
  | some ps => if ps ≠ 0 then { p1 with pageSize := ps } else p1
  | none => p1

/-- The `setTotalCount` method. -/
def setTotalCount (p : Pagination) (count : Int) : Pagination :=
  { p with totalCount := some count }

/-- The state effect of `goToPrev()`: decrement only while above 1. -/
def goToPrev (p : Pagination) : Pagination :=
  if p.page > 1 then { p with page := p.page - 1 } else p

/-- The state effect of `goToNext()`: increment only when
`canGoToNext` (the `onChange` callback is handled at Collection level). -/
def goToNext (p : Pagination) : Pagination :=
  if p.canGoToNext then { p with page := p.page + 1 } else p

end Pagination

-- ====================================================================
-- CacheItem (from src: first section of Cache.item.ts)
-- ====================================================================

/-- Modelled from the spec: `timeDeltaInMinutes` from `../util` is not in
the sources. Per the spec, staleness is a pure function of
`now − cachedAt` compared against a TTL in minutes, so the delta between
two millisecond timestamps is their difference divided by 60000. -/
def timeDeltaInMinutes (now cachedAt : Int) : ℚ :=
  ((now - cachedAt : Int) : ℚ) / 60000

/-- State of a `CacheItem`: `cachedAt` is a millisecond timestamp, `ttl`
is in minutes. -/
structure CacheItem (Item : Type) where
  id : String
  cachedAt : Int
  data : Item
  ttl : ℚ

namespace CacheItem

/-- The `isStale(now)` method: elapsed minutes strictly greater than
`ttl`. -/
def isStale (c : CacheItem Item) (now : Int) : Bool :=
  decide (timeDeltaInMinutes now c.cachedAt > c.ttl)

end CacheItem

/-- The id computation of the `CacheItem` constructor:
`(this.data.id || uuid()).toString()`. The payload is an object;
`uuidVal` stands for the string produced by `uuid()` — modelled from the
spec as a freshly generated unique identifier, since `uuid` from
`../util` is not in the sources. -/
def cacheItemId (data : FMap) (uuidVal : String) : String :=
  match FMap.lookup data "id" with
  | some v => if v.truthy then v.jsToString else uuidVal
  | none => uuidVal

-- ====================================================================
-- Sorting (modelled from the spec)
-- ====================================================================

/-- Modelled from the spec: the `Sorting` component is not in the
sources. It holds an optional sort key and an optional direction. -/
structure Sorting where
  sortBy : Option String := none
  sortAscending : Option Bool := none
deriving DecidableEq, Repr

namespace Sorting

/-- Modelled from the spec: `setParams(sortBy?, sortAscending?)` updates
both fields, an absent argument leaving the corresponding field
unchanged. -/
def setParams (s : Sorting) (sortBy? : Option String) (asc? : Option Bool) : Sorting :=
  { sortBy := match sortBy? with | some b => some b | none => s.sortBy
  , sortAscending := match asc? with | some a => some a | none => s.sortAscending }

/-- Modelled from the spec: the `params` getter exposes
`sortBy`/`sortAscending` filtered to only the defined fields. -/
def params (s : Sorting) : FMap :=
  (match s.sortBy with | some b => [("sortBy", QVal.str b)] | none => []) ++
  (match s.sortAscending with | some a => [("sortAscending", QVal.bool a)] | none => [])

end Sorting

-- ====================================================================
-- CursorPagination (modelled from the spec)
-- ====================================================================

/-- Modelled from the spec: the `CursorPagination` component is not in
the sources. State is the current request cursor, the `next`/`prev`
tokens from the last response (string or null), and a page size. -/
structure CursorPagination where
  current : Option String := none
  next : Option String := none
  prev : Option String := none
  pageSize : Int := 20
deriving DecidableEq, Repr

namespace CursorPagination

/-- Modelled from the spec: `init(cursor?, pageSize?)` primes an initial
cursor before a fetch; only the supplied fields are overwritten. -/
def init (cp : CursorPagination) (cursor? : Option String) (pageSize? : Option Int) :
    CursorPagination :=
  let cp1 :=
    match cursor? with
    | some c => { cp with current := some c }
    | none => cp
  match pageSize? with
  | some ps => if ps ≠ 0 then { cp1 with pageSize := ps } else cp1
  | none => cp1

/-- Modelled from the spec: `setNext` overwrites the next-cursor token
(`none` stands for null). -/
def setNext (cp : CursorPagination) (c : Option String) : CursorPagination :=
  { cp with next := c }

/-- Modelled from the spec: `setPrev` overwrites the prev-cursor token. -/
def setPrev (cp : CursorPagination) (c : Option String) : CursorPagination :=
  { cp with prev := c }

/-- Modelled from the spec: cursor pagination params are
`cursor`/`pageSize`, the cursor only when defined. -/
def params (cp : CursorPagination) : FMap :=
  (match cp.current with | some c => [("pageCursor", QVal.str c)] | none => []) ++
  [("pageSize", QVal.int cp.pageSize)]

end CursorPagination

-- ====================================================================
-- Collection (from src: Collection.ts)
-- ====================================================================

/-- The observable state of a `Collection`, together with the two pieces
of constructor configuration its methods read (`initialFilters` for
`resetFetchParams`, and whether an `errorHandlerFn` was configured).
`Err` is the type of thrown error values; `Item` the item type. -/
structure CollectionState (Item Err : Type) where
  initialized : Bool := false
  data : List Item := []
  totalCount : Int := 0
  fetching : Bool := false
  fetchErr : Option Err := none
  searching : Bool := false
  searchErr : Option Err := none
  searchQuery : String := ""
  sorting : Sorting := {}
  filtersMap : FMap := []
  pagination : Option Pagination := none
  cursorPagination : Option CursorPagination := none
  initialFilters : Option FMap := none
  hasErrorHandler : Bool := false

/-- The options object accepted by `Collection.fetch`. Absent fields are
`none`; `clearFilters` and `shouldThrowError` are read as booleans
(truthiness of an absent field is false). -/
structure FetchOptions where
  clearFilters : Bool := false
  query : Option String := none
  filters : Option FMap := none
  sortBy : Option String := none
  sortAscending : Option Bool := none
  page : Option Int := none
  pageSize : Option Int := none
  pageCursor : Option String := none
  shouldThrowError : Bool := false

/-- The result object an injected `fetchFn` resolves with. The outer
`Option` on `totalCount`/cursor fields records whether the field is
present in the object (the code tests presence with `"totalCount" in
res`); the inner `Option` on cursors distinguishes null from a string. -/
structure FetchRes (Item : Type) where
  data : List Item := []
  totalCount : Option Int := none
  nextPageCursor : Option (Option String) := none
  prevPageCursor : Option (Option String) := none

/-- JavaScript `x || null` on a nullable string: a falsy value (null,
undefined or the empty string) becomes null. -/
def jsOrNull (c : Option String) : Option String :=
  match c with
  | some s => if s ≠ "" then some s else none
  | none => none

namespace Collection

/-- The `filters` getter: `Object.fromEntries(this.filtersMap)`. -/
def filters (st : CollectionState Item Err) : FMap :=
  FMap.fromEntries st.filtersMap

/-- The `queryParams` getter: the spread
of `filters`, `sorting.params` and the active strategy's params. -/
def queryParams (st : CollectionState Item Err) : FMap :=
  let paginationParams :=
    match st.pagination with
    | some p => p.params
    | none =>
      match st.cursorPagination with
      | some cp => cp.params
      | none => []
  FMap.merge (FMap.merge (filters st) st.sorting.params) paginationParams

/-- The `setFetchParams` method: clear the filter map, then replace it
with the entries of the given object. -/
def setFetchParams (st : CollectionState Item Err) (fs : FMap) : CollectionState Item Err :=
  { st with filtersMap := FMap.fromEntries fs }

/-- The `mergeFetchParams` method: `this.filtersMap.merge(filters)`. -/
def mergeFetchParams (st : CollectionState Item Err) (fs : FMap) : CollectionState Item Err :=
  { st with filtersMap := FMap.merge st.filtersMap fs }

/-- The `clearFetchParams` method. -/
def clearFetchParams (st : CollectionState Item Err) : CollectionState Item Err :=
  { st with filtersMap := [] }

/-- The `clearFetchParam` method. -/
def clearFetchParam (st : CollectionState Item Err) (k : String) : CollectionState Item Err :=
  { st with filtersMap := FMap.del st.filtersMap k }

/-- The `resetFetchParams` method: replace the filter map with the
construction-time `initialFilters`, or empty when none were given. -/
def resetFetchParams (st : CollectionState Item Err) : CollectionState Item Err :=
  { st with filtersMap :=
      FMap.fromEntries (match st.initialFilters with | some f => f | none => []) }

/-- The part of `fetch` that runs before the injected `fetchFn` is
awaited: apply sort params, initialize the active pagination strategy,
resolve and apply filters, and raise the `fetching` flag. `qsParse`
stands for the external `qs.parse`. -/
def fetchPrep (st : CollectionState Item Err) (opts : FetchOptions)
    (qsParse : String → FMap) : CollectionState Item Err :=
  let st1 := { st with sorting := st.sorting.setParams opts.sortBy opts.sortAscending }
  let st2 :=
    match st1.pagination with
    | some p => { st1 with pagination := some (p.init opts.page opts.pageSize) }
    | none =>
      match st1.cursorPagination with
      | some cp => { st1 with cursorPagination := some (cp.init opts.pageCursor opts.pageSize) }
      | none => st1
  let fOpt :=
    match opts.query with
    | some q => if q ≠ "" then some (qsParse q) else opts.filters
    | none => opts.filters
  let st3 :=
    match fOpt with
    | some f => if opts.clearFilters then setFetchParams st2 f else mergeFetchParams st2 f
    | none => st2
  { st3 with fetching := true }

/-- The observable outcome of one `fetch` call: the final state, the
value the promise settles with (`Except.error` = the call re-threw), the
error values passed to the external error handler, and the query-param
objects the injected `fetchFn` was invoked with. -/
structure FetchOutcome (Item Err : Type) where
  state : CollectionState Item Err
  result : Except Err (FetchRes Item)
  handlerCalls : List Err
  fetchCalls : List FMap

/-- The `fetch` method. The injected `fetchFn` either resolves with a
`FetchRes` or rejects with an error. -/
def fetch (st : CollectionState Item Err) (opts : FetchOptions)
    (qsParse : String → FMap)
    (fetchFn : FMap → Except Err (FetchRes Item)) : FetchOutcome Item Err :=
  let stP := fetchPrep st opts qsParse
  let qp := queryParams stP
  match fetchFn qp with
  | .ok res =>
    let stA := { stP with data := res.data }
    let stB :=
      match res.totalCount with
      | some t => { stA with totalCount := t }
      | none => stA
    let stC :=
      match stB.cursorPagination with
      | some cp =>
        let cp1 :=
          match res.nextPageCursor with
          | some c => cp.setNext (jsOrNull c)
          | none => cp
        let cp2 :=
          match res.prevPageCursor with
          | some c => cp1.setPrev (jsOrNull c)
          | none => cp1
        { stB with cursorPagination := some cp2 }
      | none => stB
    { state := { stC with fetching := false, initialized := true }
    , result := .ok res, handlerCalls := [], fetchCalls := [qp] }
  | .error e =>
    let stA := { stP with fetchErr := some e }
    let calls := if stA.hasErrorHandler then [e] else []
    let stB := { stA with fetching := false, initialized := true }
    if opts.shouldThrowError then
      { state := stB, result := .error e, handlerCalls := calls, fetchCalls := [qp] }
    else
      { state := stB, result := .ok { data := [], totalCount := some 0 }
      , handlerCalls := calls, fetchCalls := [qp] }

/-- The `init` method: fetch only when not yet initialized. The second
component lists the query params of the `fetchFn` invocations made. -/
def initCall (st : CollectionState Item Err) (opts : FetchOptions)
    (qsParse : String → FMap)
    (fetchFn : FMap → Except Err (FetchRes Item)) :
    CollectionState Item Err × List FMap :=
  if st.initialized then (st, [])
  else
    let o := fetch st opts qsParse fetchFn
    (o.state, o.fetchCalls)

/-- The private `handleSearch` method (the debounced body of `search`):
no-op when no `searchFn` is configured; otherwise raise `searching`,
replace the data on success, or record the error, call the handler and
optionally re-throw on failure. -/
def handleSearch (st : CollectionState Item Err) (shouldThrow : Bool)
    (searchFn? : Option (String → Except Err (List Item))) :
    CollectionState Item Err × Except Err Unit × List Err :=
  match searchFn? with
  | none => (st, .ok (), [])
  | some sf =>
    let st1 := { st with searching := true }
    match sf st1.searchQuery with
    | .ok d => ({ st1 with data := d, searching := false }, .ok (), [])
    | .error e =>
      let st2 := { st1 with searchErr := some e }
      let calls := if st2.hasErrorHandler then [e] else []
      let st3 := { st2 with searching := false }
      if shouldThrow then (st3, .error e, calls) else (st3, .ok (), calls)

/-- The `search` method: store the query, then run the (debounced)
search handler. -/
def search (st : CollectionState Item Err) (q : String) (shouldThrow : Bool)
    (searchFn? : Option (String → Except Err (List Item))) :
    CollectionState Item Err × Except Err Unit × List Err :=
  handleSearch { st with searchQuery := q } shouldThrow searchFn?

/-- The `resetState` method. -/
def resetState (st : CollectionState Item Err) : CollectionState Item Err :=
  { st with
      initialized := false
      data := []
      totalCount := 0
      filtersMap := []
      searchQuery := ""
      fetching := false
      fetchErr := none
      searching := false
      searchErr := none }

end Collection

-- ====================================================================
-- Structural lemmas about fetch
-- ====================================================================

namespace Collection

theorem fetchPrep_data (st : CollectionState Item Err) (opts : FetchOptions)
    (q : String → FMap) : (fetchPrep st opts q).data = st.data := by
  unfold fetchPrep
  dsimp only
  repeat' split
  all_goals rfl

theorem fetchPrep_hasErrorHandler (st : CollectionState Item Err) (opts : FetchOptions)
    (q : String → FMap) : (fetchPrep st opts q).hasErrorHandler = st.hasErrorHandler := by
  unfold fetchPrep
  dsimp only
  repeat' split
  all_goals rfl

theorem fetchPrep_pagination (st : CollectionState Item Err) (opts : FetchOptions)
    (q : String → FMap) :
    (fetchPrep st opts q).pagination =
      Option.map (fun p => p.init opts.page opts.pageSize) st.pagination := by
  unfold fetchPrep
  dsimp only
  cases hp : st.pagination <;> simp only [hp] <;> repeat' split
  all_goals simp_all [setFetchParams, mergeFetchParams]

theorem fetch_fetching_false (st : CollectionState Item Err) (opts : FetchOptions)
    (q : String → FMap) (f : FMap → Except Err (FetchRes Item)) :
    (fetch st opts q f).state.fetching = false := by
  unfold fetch
  dsimp only
  cases hr : f (queryParams (fetchPrep st opts q)) <;> dsimp only <;>
    repeat' split <;> rfl

theorem fetch_initialized_true (st : CollectionState Item Err) (opts : FetchOptions)
    (q : String → FMap) (f : FMap → Except Err (FetchRes Item)) :
    (fetch st opts q f).state.initialized = true := by
  unfold fetch
  dsimp only
  cases hr : f (queryParams (fetchPrep st opts q)) <;> dsimp only <;>
    repeat' split <;> rfl

theorem fetch_fetchCalls (st : CollectionState Item Err) (opts : FetchOptions)
    (q : String → FMap) (f : FMap → Except Err (FetchRes Item)) :
    (fetch st opts q f).fetchCalls = [queryParams (fetchPrep st opts q)] := by
  unfold fetch
  dsimp only
  cases hr : f (queryParams (fetchPrep st opts q)) <;> dsimp only <;>
    repeat' split <;> rfl

theorem fetch_pagination_map (st : CollectionState Item Err) (opts : FetchOptions)
    (q : String → FMap) (f : FMap → Except Err (FetchRes Item)) :
    (fetch st opts q f).state.pagination =
      Option.map (fun p => p.init opts.page opts.pageSize) st.pagination := by
  unfold fetch
  dsimp only
  cases hr : f (queryParams (fetchPrep st opts q)) <;> dsimp only <;> repeat' split
  all_goals simp_all [fetchPrep_pagination]

theorem handleSearch_initialized (st : CollectionState Item Err) (b : Bool)
    (sf? : Option (String → Except Err (List Item))) :
    (handleSearch st b sf?).1.initialized = st.initialized := by
  unfold handleSearch
  cases sf? with
  | none => rfl
  | some sf =>
    dsimp only
    cases hr : sf st.searchQuery <;> dsimp only <;> repeat' split <;> rfl

end Collection

/-- The state-changing operations available on a `Collection` (its
public methods, plus the navigation methods of an attached offset
`Pagination`, whose `onChange` re-enters `fetch`). Injected functions
are carried by the operation. -/
inductive Op (Item Err : Type) where
  | fetchOp (opts : FetchOptions) (qsParse : String → FMap)
      (fetchFn : FMap → Except Err (FetchRes Item))
  | initOp (opts : FetchOptions) (qsParse : String → FMap)
      (fetchFn : FMap → Except Err (FetchRes Item))
  | setFetchParamsOp (fs : FMap)
  | mergeFetchParamsOp (fs : FMap)
  | clearFetchParamsOp
  | clearFetchParamOp (k : String)
  | resetFetchParamsOp
  | searchOp (q : String) (shouldThrow : Bool)
      (searchFn? : Option (String → Except Err (List Item)))
  | goToNextOp (qsParse : String → FMap) (fetchFn : FMap → Except Err (FetchRes Item))
  | goToPrevOp
  | resetStateOp

/-- The state reached by running one operation. `goToNextOp` follows the
source: `Pagination.goToNext` increments only when `canGoToNext` and
then fires `onChange`, which the `Collection` constructor wires to
`this.fetch()` with no arguments. -/
def applyOp (st : CollectionState Item Err) : Op Item Err → CollectionState Item Err
  | .fetchOp opts qsParse fetchFn => (Collection.fetch st opts qsParse fetchFn).state
  | .initOp opts qsParse fetchFn => (Collection.initCall st opts qsParse fetchFn).1
  | .setFetchParamsOp fs => Collection.setFetchParams st fs
  | .mergeFetchParamsOp fs => Collection.mergeFetchParams st fs
  | .clearFetchParamsOp => Collection.clearFetchParams st
  | .clearFetchParamOp k => Collection.clearFetchParam st k
  | .resetFetchParamsOp => Collection.resetFetchParams st
  | .searchOp q shouldThrow searchFn? => (Collection.search st q shouldThrow searchFn?).1
  | .goToNextOp qsParse fetchFn =>
    match st.pagination with
    | some p =>
      if p.canGoToNext then
        (Collection.fetch { st with pagination := some { p with page := p.page + 1 } }
          {} qsParse fetchFn).state
      else st
    | none => st
  | .goToPrevOp =>
    match st.pagination with
    | some p => { st with pagination := some p.goToPrev }
    | none => st
  | .resetStateOp => Collection.resetState st

-- ====================================================================
-- Specification-side definitions (stated from the spec's words, to be
-- compared with the code-side definitions above)
-- ====================================================================

/-- The pagination params contributed by the active strategy:
`page`/`pageSize` for offset, cursor params for cursor, empty when no
strategy is configured. -/
def paginationParamsOf (st : CollectionState Item Err) : FMap :=
  match st.pagination with
  | some p => p.params
  | none =>
    match st.cursorPagination with
    | some cp => cp.params
    | none => []

/-- Specification-side union of the three query-parameter sources: field
`k` of `queryParams` takes its value from the pagination params, else
the sorting params, else the filters. -/
def specUnionLookup (st : CollectionState Item Err) (k : String) : Option QVal :=
  match FMap.lookup (paginationParamsOf st) k with
  | some v => some v
  | none =>
    match FMap.lookup st.sorting.params k with
    | some v => some v
    | none => FMap.lookup (Collection.filters st) k

/-- Specification-side value of key `k` after shallow-merging the
argument objects `fs` in call order: the value from the last argument
containing `k`, if any. -/
def overrideLookup : List FMap → String → Option QVal
  | [], _ => none
  | f :: t, k =>
    match overrideLookup t k with
    | some v => some v
    | none => FMap.lookupLast f k

/-- Running a sequence of `fetch` calls, each with its own options,
query-string parser and injected fetch function. -/
def fetchMany (st : CollectionState Item Err)
    (calls : List (FetchOptions × (String → FMap) × (FMap → Except Err (FetchRes Item)))) :
    CollectionState Item Err :=
  List.foldl (fun s c => (Collection.fetch s c.1 c.2.1 c.2.2).state) st calls

-- ====================================================================
-- Lemmas about the map operations
-- ====================================================================

theorem FMap.lookup_nil (k : String) : FMap.lookup [] k = none := rfl

theorem FMap.lookup_cons (e : String × QVal) (t : FMap) (k : String) :
    FMap.lookup (e :: t) k = if e.1 = k then some e.2 else FMap.lookup t k := by
  by_cases h : e.1 = k <;> simp [FMap.lookup, List.find?_cons, h]

theorem FMap.lookup_eq_none_of_not_mem_keys (m : FMap) (k : String)
    (h : k ∉ List.map Prod.fst m) : FMap.lookup m k = none := by
  induction m with
  | nil => rfl
  | cons e t ih =>
    simp only [List.map_cons, List.mem_cons] at h
    push_neg at h
    rw [FMap.lookup_cons]
    simp [Ne.symm h.1, ih h.2]

theorem FMap.lookup_replaceAll_ne (t : FMap) (k : String) (v : QVal) (k' : String)
    (h : k' ≠ k) :
    FMap.lookup (List.map (fun e => if e.1 = k then (k, v) else e) t) k' =
      FMap.lookup t k' := by
  induction t with
  | nil => rfl
  | cons e t ih =>
    by_cases he : e.1 = k
    · simp only [List.map_cons, he, if_pos]
      rw [FMap.lookup_cons, FMap.lookup_cons, he]
      simp [Ne.symm h, ih]
    · simp only [List.map_cons, he, if_neg, not_false_iff]
      rw [FMap.lookup_cons, FMap.lookup_cons]
      by_cases h2 : e.1 = k' <;> simp [h2, ih]

theorem FMap.lookup_replaceAll_self (t : FMap) (k : String) (v : QVal)
    (h : List.any t (fun e => e.1 = k) = true) :
    FMap.lookup (List.map (fun e => if e.1 = k then (k, v) else e) t) k = some v := by
  induction t with
  | nil => simp at h
  | cons e t ih =>
    by_cases he : e.1 = k
    · simp only [List.map_cons, he, if_pos]
      rw [FMap.lookup_cons]
      simp
    · simp only [List.any_cons, he, decide_eq_true_eq, Bool.false_or,
        decide_eq_false he] at h
      simp only [List.map_cons, he, if_neg, not_false_iff]
      rw [FMap.lookup_cons]
      simp [he, ih h]

theorem FMap.lookup_append_single (m : FMap) (k : String) (v : QVal) (k' : String) :
    FMap.lookup (m ++ [(k, v)]) k' =
      match FMap.lookup m k' with
      | some w => some w
      | none => if k' = k then some v else none := by
  induction m with
  | nil =>
    rw [List.nil_append, FMap.lookup_cons]
    by_cases h : k = k'
    · simp [h, FMap.lookup_nil]
    · rw [if_neg h]
      have h' : ¬k' = k := fun hh => h hh.symm
      simp [FMap.lookup_nil, if_neg h']
  | cons e t ih =>
    rw [List.cons_append, FMap.lookup_cons, FMap.lookup_cons]
    by_cases h : e.1 = k' <;> simp [h, ih]

theorem FMap.lookup_set (m : FMap) (k : String) (v : QVal) (k' : String) :
    FMap.lookup (FMap.set m k v) k' = if k' = k then some v else FMap.lookup m k' := by
  unfold FMap.set
  by_cases h : List.any m (fun e => e.1 = k) = true
  · rw [if_pos h]
    by_cases hk : k' = k
    · subst hk
      rw [FMap.lookup_replaceAll_self m k' v h]
      simp
    · rw [FMap.lookup_replaceAll_ne m k v k' hk]
      simp [hk]
  · rw [if_neg h]
    rw [FMap.lookup_append_single]
    by_cases hk : k' = k
    · subst hk
      have hnone : FMap.lookup m k' = none := by
        apply FMap.lookup_eq_none_of_not_mem_keys
        intro hmem
        apply h
        rw [List.any_eq_true]
        obtain ⟨e, he, hek⟩ := List.mem_map.mp hmem
        exact ⟨e, he, by simp [hek]⟩
      simp [hnone]
    · simp only [hk, if_neg, not_false_iff]
      cases FMap.lookup m k' <;> simp [hk]

theorem FMap.lookup_merge (m obj : FMap) (k : String) :
    FMap.lookup (FMap.merge m obj) k =
      match FMap.lookupLast obj k with
      | some v => some v
      | none => FMap.lookup m k := by
  induction obj generalizing m with
  | nil => rfl
  | cons e t ih =>
    have hstep : FMap.merge m (e :: t) = FMap.merge (FMap.set m e.1 e.2) t := rfl
    rw [hstep, ih]
    cases ht : FMap.lookupLast t k with
    | some v => simp [FMap.lookupLast, ht]
    | none =>
      simp only [FMap.lookupLast, ht]
      rw [FMap.lookup_set]
      by_cases hk : k = e.1
      · simp [hk]
      · rw [if_neg hk, if_neg (fun h => hk (Eq.symm h))]

theorem Pagination.pagination_params_keys_nodup (p : Pagination) :
    List.Nodup (List.map Prod.fst p.params) := by
  simp [Pagination.params]

theorem Sorting.sorting_params_keys_nodup (s : Sorting) :
    List.Nodup (List.map Prod.fst s.params) := by
  cases hb : s.sortBy <;> cases ha : s.sortAscending <;> simp [Sorting.params, hb, ha]

theorem CursorPagination.cursor_params_keys_nodup (cp : CursorPagination) :
    List.Nodup (List.map Prod.fst cp.params) := by
  cases hc : cp.current <;> simp [CursorPagination.params, hc]

theorem paginationParamsOf_keys_nodup (st : CollectionState Item Err) :
    List.Nodup (List.map Prod.fst (paginationParamsOf st)) := by
  unfold paginationParamsOf
  cases st.pagination with
  | some p => exact p.pagination_params_keys_nodup
  | none =>
    cases st.cursorPagination with
    | some cp => exact cp.cursor_params_keys_nodup
    | none => simp

theorem FMap.lookupLast_eq_lookup (m : FMap) (h : List.Nodup (List.map Prod.fst m))
    (k : String) : FMap.lookupLast m k = FMap.lookup m k := by
  induction m with
  | nil => rfl
  | cons e t ih =>
    rw [List.map_cons, List.nodup_cons] at h
    have hstep : FMap.lookupLast (e :: t) k =
        (match FMap.lookupLast t k with
         | some v => some v
         | none => if e.1 = k then some e.2 else none) := rfl
    rw [hstep, ih h.2, FMap.lookup_cons]
    by_cases he : e.1 = k
    · have ht : FMap.lookup t k = none :=
        FMap.lookup_eq_none_of_not_mem_keys t k (he ▸ h.1)
      simp [ht, he]
    · rw [if_neg he, if_neg he]
      cases h2 : FMap.lookup t k <;> simp


-- ====================================================================
-- Claim theorems
-- ====================================================================

/-- Claim C1, counterexample: the claimed equivalence "whenever
`totalCount` has been set, `canGoToNext` is true iff
`page * pageSize < totalCount`" fails for a pagination whose
`totalCount` has been set to `0`: the getter returns true although
`1 * 10 < 0` is false. -/
theorem canGoToNext_zero_total_counterexample :
    Pagination.canGoToNext { page := 1, pageSize := 10, totalCount := some 0 } = true ∧
    ¬ ((1 : Int) * 10 < 0) := by
  constructor
  · rfl
  · decide

/-- Claim C1 (amended): `canGoToNext` is true whenever `totalCount` is
unknown OR has been set to `0` (the code tests JavaScript truthiness
`!this.totalCount`); whenever `totalCount` is set to a nonzero value it
is true iff `page * pageSize < totalCount`; in particular it is true for
`page=2, pageSize=10, totalCount=25` and false for
`page=3, pageSize=10, totalCount=25`. -/
theorem canGoToNext_characterization (p : Pagination) :
    (p.totalCount = none → p.canGoToNext = true) ∧
    (p.totalCount = some 0 → p.canGoToNext = true) ∧
    (∀ t : Int, p.totalCount = some t → t ≠ 0 →
      (p.canGoToNext = true ↔ p.page * p.pageSize < t)) ∧
    Pagination.canGoToNext { page := 2, pageSize := 10, totalCount := some 25 } = true ∧
    Pagination.canGoToNext { page := 3, pageSize := 10, totalCount := some 25 } = false := by
  refine ⟨?_, ?_, ?_, by decide, by decide⟩
  · intro h
    simp [Pagination.canGoToNext, h]
  · intro h
    simp [Pagination.canGoToNext, h]
  · intro t ht hne
    simp [Pagination.canGoToNext, ht, hne]

/-- Witness for C1: the amended characterization applied at
`page=2, pageSize=10, totalCount=25`. -/
theorem canGoToNext_characterization_witness :
    Pagination.canGoToNext { page := 2, pageSize := 10, totalCount := some 25 } = true :=
  ((canGoToNext_characterization { page := 2, pageSize := 10, totalCount := some 25 }).2.2.1
    25 rfl (by decide)).mpr (by decide)

/-- Claim C8: `isStale(now)` is true iff the elapsed time in minutes
between `cachedAt` and `now` strictly exceeds `ttl` (equivalently, the
elapsed milliseconds exceed `ttl * 60000`); for `ttl = 5` it is false at
`cachedAt + 4` minutes and true at `cachedAt + 6` minutes. -/
theorem isStale_iff_elapsed_exceeds_ttl (c : CacheItem Item) (now : Int) :
    (c.isStale now = true ↔ timeDeltaInMinutes now c.cachedAt > c.ttl) ∧
    (c.isStale now = true ↔ ((now - c.cachedAt : Int) : ℚ) > c.ttl * 60000) ∧
    (c.ttl = 5 →
      (c.isStale (c.cachedAt + 4 * 60000) = false ∧
       c.isStale (c.cachedAt + 6 * 60000) = true)) := by
  have hiff : ∀ m : Int, (c.isStale m = true ↔ timeDeltaInMinutes m c.cachedAt > c.ttl) := by
    intro m
    simp [CacheItem.isStale]
  have hms : ∀ m : Int, (timeDeltaInMinutes m c.cachedAt > c.ttl ↔
      ((m - c.cachedAt : Int) : ℚ) > c.ttl * 60000) := by
    intro m
    unfold timeDeltaInMinutes
    rw [gt_iff_lt, gt_iff_lt, lt_div_iff (by norm_num : (0 : ℚ) < 60000)]
  refine ⟨hiff now, (hiff now).trans (hms now), ?_⟩
  intro httl
  constructor
  · rw [Bool.eq_false_iff]
    intro hcontra
    have h4 := (hms _).mp ((hiff _).mp hcontra)
    rw [httl] at h4
    have : ((c.cachedAt + 4 * 60000 - c.cachedAt : Int) : ℚ) = 240000 := by
      push_cast
      ring
    rw [this] at h4
    norm_num at h4
  · rw [(hiff _), (hms _), httl]
    have : ((c.cachedAt + 6 * 60000 - c.cachedAt : Int) : ℚ) = 360000 := by
      push_cast
      ring
    rw [this]
    norm_num

/-- Witness for C8: a concrete item cached at time `0` with `ttl = 5` is
not stale four minutes later and stale six minutes later. -/
theorem isStale_iff_elapsed_exceeds_ttl_witness :
    CacheItem.isStale { id := "x", cachedAt := 0, data := (), ttl := 5 }
      ((0 : Int) + 4 * 60000) = false ∧
    CacheItem.isStale { id := "x", cachedAt := 0, data := (), ttl := 5 }
      ((0 : Int) + 6 * 60000) = true :=
  (isStale_iff_elapsed_exceeds_ttl
    { id := "x", cachedAt := 0, data := (), ttl := 5 } 0).2.2 rfl

/-- Claim C9, counterexample: a payload whose `id` field is present but
falsy (here the number `0`) does NOT get its own id coerced to a string;
the code's `this.data.id || uuid()` falls through to the generated
identifier. -/
theorem cacheItemId_falsy_id_counterexample :
    cacheItemId [("id", QVal.int 0)] "generated-uuid" = "generated-uuid" ∧
    QVal.jsToString (QVal.int 0) = "0" ∧
    ("generated-uuid" : String) ≠ "0" := by
  refine ⟨rfl, rfl, by decide⟩

/-- Claim C9 (amended): the resulting id equals the payload's own `id`
field coerced to a string whenever that field is present AND truthy;
when the field is absent, or present but falsy (`""`, `0`, `false`,
`null`), the id is the freshly generated identifier. -/
theorem cacheItemId_characterization (data : FMap) (u : String) :
    (∀ v, FMap.lookup data "id" = some v → v.truthy = true →
      cacheItemId data u = v.jsToString) ∧
    (FMap.lookup data "id" = none → cacheItemId data u = u) ∧
    (∀ v, FMap.lookup data "id" = some v → v.truthy = false →
      cacheItemId data u = u) := by
  unfold cacheItemId
  refine ⟨?_, ?_, ?_⟩ <;> intros <;> simp_all

/-- Witness for C9: a payload with the truthy id `"x"` keeps its own id. -/
theorem cacheItemId_characterization_witness :
    cacheItemId [("id", QVal.str "x")] "generated-uuid" = "x" :=
  (cacheItemId_characterization [("id", QVal.str "x")] "generated-uuid").1
    (QVal.str "x") (by decide) (by decide)

/-- Claim C6: from every Collection state, `resetState()` restores
`initialized=false, items=[], totalCount=0, filtersMap={},
searchQuery="", fetching=false, searching=false, fetchErr=undefined,
searchErr=undefined`, while leaving the pagination, cursor-pagination
and sorting objects (and hence their page, pageSize, sortBy and
sortAscending values) unchanged. -/
theorem resetState_resets_model_and_preserves_strategies
    (st : CollectionState Item Err) :
    (Collection.resetState st).initialized = false ∧
    (Collection.resetState st).data = [] ∧
    (Collection.resetState st).totalCount = 0 ∧
    (Collection.resetState st).filtersMap = [] ∧
    (Collection.resetState st).searchQuery = "" ∧
    (Collection.resetState st).fetching = false ∧
    (Collection.resetState st).searching = false ∧
    (Collection.resetState st).fetchErr = none ∧
    (Collection.resetState st).searchErr = none ∧
    (Collection.resetState st).pagination = st.pagination ∧
    (Collection.resetState st).cursorPagination = st.cursorPagination ∧
    (Collection.resetState st).sorting = st.sorting := by
  refine ⟨rfl, rfl, rfl, rfl, rfl, rfl, rfl, rfl, rfl, rfl, rfl, rfl⟩

/-- Claim C7: for every starting filter map and every finite sequence of
`mergeFetchParams` calls, the resulting filter map agrees, on every key,
with the shallow merge of the starting map with the argument objects in
call order: a key appearing in a later argument overwrites earlier
values, and keys absent from all arguments keep their prior values. -/
theorem mergeFetchParams_fold_is_shallow_merge
    (st : CollectionState Item Err) (fs : List FMap) (k : String) :
    FMap.lookup (List.foldl Collection.mergeFetchParams st fs).filtersMap k =
      match overrideLookup fs k with
      | some v => some v
      | none => FMap.lookup st.filtersMap k := by
  induction fs generalizing st with
  | nil => rfl
  | cons f t ih =>
    have hstep : List.foldl Collection.mergeFetchParams st (f :: t) =
        List.foldl Collection.mergeFetchParams (Collection.mergeFetchParams st f) t := rfl
    rw [hstep, ih]
    have hm : (Collection.mergeFetchParams st f).filtersMap =
        FMap.merge st.filtersMap f := rfl
    rw [hm, FMap.lookup_merge]
    have hov : overrideLookup (f :: t) k =
        (match overrideLookup t k with
         | some v => some v
         | none => FMap.lookupLast f k) := rfl
    rw [hov]
    cases ho : overrideLookup t k <;> cases hl : FMap.lookupLast f k <;> simp [ho, hl]

/-- Claim C4: in every Collection state, `queryParams` is, key by key,
the union of the current filters, the current sorting params (only
defined fields) and the current pagination params (page/pageSize for the
offset strategy, cursor params for the cursor strategy, empty when no
strategy is configured): the value of a key is taken from pagination,
else sorting, else filters, and a key is present in `queryParams`
exactly when it is present in at least one of the three sources — no
field is silently dropped. -/
theorem queryParams_is_union (st : CollectionState Item Err) (k : String) :
    FMap.lookup (Collection.queryParams st) k = specUnionLookup st k ∧
    ((FMap.lookup (Collection.queryParams st) k).isSome ↔
      ((FMap.lookup (Collection.filters st) k).isSome ∨
       (FMap.lookup st.sorting.params k).isSome ∨
       (FMap.lookup (paginationParamsOf st) k).isSome)) := by
  have hq : Collection.queryParams st =
      FMap.merge (FMap.merge (Collection.filters st) st.sorting.params)
        (paginationParamsOf st) := rfl
  have h1 : FMap.lookup (Collection.queryParams st) k = specUnionLookup st k := by
    rw [hq, FMap.lookup_merge, FMap.lookup_merge]
    rw [FMap.lookupLast_eq_lookup _ (paginationParamsOf_keys_nodup st),
      FMap.lookupLast_eq_lookup _ (Sorting.sorting_params_keys_nodup st.sorting)]
    unfold specUnionLookup
    cases FMap.lookup (paginationParamsOf st) k <;>
      cases FMap.lookup st.sorting.params k <;> simp
  refine ⟨h1, ?_⟩
  rw [h1]
  unfold specUnionLookup
  cases FMap.lookup (paginationParamsOf st) k <;>
    cases FMap.lookup st.sorting.params k <;>
      cases FMap.lookup (Collection.filters st) k <;> simp

/-- Claim C2: a `fetch()` whose options do not set `shouldThrowError`,
run against a failing injected `fetchFn`, records the error in
`fetchErr`, invokes the configured external error handler if one exists,
leaves `items` unchanged from the prior state, does not raise an
exception to the caller, and returns the synthetic result
`data=[], totalCount=0`. -/
theorem fetch_failure_no_throw (st : CollectionState Item Err) (opts : FetchOptions)
    (q : String → FMap) (f : FMap → Except Err (FetchRes Item)) (e : Err)
    (hthrow : opts.shouldThrowError = false)
    (herr : f (Collection.queryParams (Collection.fetchPrep st opts q)) = Except.error e) :
    (Collection.fetch st opts q f).state.fetchErr = some e ∧
    (Collection.fetch st opts q f).state.data = st.data ∧
    (st.hasErrorHandler = true → (Collection.fetch st opts q f).handlerCalls = [e]) ∧
    (Collection.fetch st opts q f).result =
      Except.ok { data := [], totalCount := some 0 } := by
  unfold Collection.fetch
  dsimp only
  rw [herr]
  dsimp only
  rw [hthrow]
  refine ⟨rfl, Collection.fetchPrep_data st opts q, ?_, rfl⟩
  intro h
  have hh : (Collection.fetchPrep st opts q).hasErrorHandler = true :=
    (Collection.fetchPrep_hasErrorHandler st opts q).trans h
  simp [hh]

/-- Witness for C2: a concrete Collection with an error handler
configured, fetched with an always-failing `fetchFn`. -/
theorem fetch_failure_no_throw_witness :
    (Collection.fetch ({ hasErrorHandler := true } : CollectionState Nat Nat) {}
        (fun _ => []) (fun _ => Except.error 7)).state.fetchErr = some 7 ∧
    (Collection.fetch ({ hasErrorHandler := true } : CollectionState Nat Nat) {}
        (fun _ => []) (fun _ => Except.error 7)).handlerCalls = [7] ∧
    (Collection.fetch ({ hasErrorHandler := true } : CollectionState Nat Nat) {}
        (fun _ => []) (fun _ => Except.error 7)).result =
      Except.ok { data := [], totalCount := some 0 } :=
  have h := fetch_failure_no_throw ({ hasErrorHandler := true } : CollectionState Nat Nat)
    {} (fun _ => []) (fun _ => Except.error 7) 7 rfl rfl
  ⟨h.1, h.2.2.1 rfl, h.2.2.2⟩

/-- Claim C3: every completed `fetch()` (success, swallowed failure or
re-throw) leaves `fetching = false` and `initialized = true`; and once
`initialized` is true, every operation other than `resetState` leaves it
true. -/
theorem fetch_completion_flags_and_initialized_sticky
    (st : CollectionState Item Err) (opts : FetchOptions) (q : String → FMap)
    (f : FMap → Except Err (FetchRes Item)) :
    ((Collection.fetch st opts q f).state.fetching = false ∧
     (Collection.fetch st opts q f).state.initialized = true) ∧
    (∀ op : Op Item Err, op ≠ Op.resetStateOp → st.initialized = true →
      (applyOp st op).initialized = true) := by
  refine ⟨⟨Collection.fetch_fetching_false st opts q f,
    Collection.fetch_initialized_true st opts q f⟩, ?_⟩
  intro op hne h
  cases op with
  | fetchOp o qp ff => exact Collection.fetch_initialized_true st o qp ff
  | initOp o qp ff =>
    unfold applyOp Collection.initCall
    dsimp only
    rw [if_pos h]
    exact h
  | setFetchParamsOp fs => exact h
  | mergeFetchParamsOp fs => exact h
  | clearFetchParamsOp => exact h
  | clearFetchParamOp k => exact h
  | resetFetchParamsOp => exact h
  | searchOp qq b sf =>
    have hh := Collection.handleSearch_initialized
      ({ st with searchQuery := qq } : CollectionState Item Err) b sf
    unfold applyOp Collection.search
    rw [hh]
    exact h
  | goToNextOp qp ff =>
    unfold applyOp
    dsimp only
    cases hp : st.pagination with
    | none => exact h
    | some p =>
      dsimp only
      split
      · exact Collection.fetch_initialized_true _ _ qp ff
      · exact h
  | goToPrevOp =>
    unfold applyOp
    dsimp only
    cases hp : st.pagination with
    | none => exact h
    | some p => exact h
  | resetStateOp => exact absurd rfl hne

/-- Witness for C3: a concrete fetch clears `fetching`, and clearing the
filter params on an initialized Collection keeps `initialized` true. -/
theorem fetch_completion_flags_and_initialized_sticky_witness :
    ((Collection.fetch ({ initialized := true } : CollectionState Nat Nat) {}
        (fun _ => []) (fun _ => Except.error 0)).state.fetching = false) ∧
    (applyOp ({ initialized := true } : CollectionState Nat Nat)
        Op.clearFetchParamsOp).initialized = true :=
  have h := fetch_completion_flags_and_initialized_sticky
    ({ initialized := true } : CollectionState Nat Nat) {} (fun _ => [])
    (fun _ => Except.error 0)
  ⟨h.1.1, h.2 Op.clearFetchParamsOp (fun hcon => Op.noConfusion hcon) rfl⟩

/-- Claim C5: `init(opts)` on an initialized Collection performs no
fetch and changes no state; from an uninitialized state, two `init`
calls in a row invoke the underlying fetch function exactly once. -/
theorem init_is_noop_when_initialized_and_fetches_once
    (st : CollectionState Item Err) (o1 o2 : FetchOptions)
    (q1 q2 : String → FMap) (f1 f2 : FMap → Except Err (FetchRes Item)) :
    (st.initialized = true → Collection.initCall st o1 q1 f1 = (st, [])) ∧
    (st.initialized = false →
      (Collection.initCall st o1 q1 f1).2.length +
        (Collection.initCall (Collection.initCall st o1 q1 f1).1 o2 q2 f2).2.length = 1) := by
  constructor
  · intro h
    unfold Collection.initCall
    rw [if_pos h]
  · intro h
    unfold Collection.initCall
    rw [if_neg (by simp [h])]
    dsimp only
    rw [if_pos (Collection.fetch_initialized_true st o1 q1 f1),
      Collection.fetch_fetchCalls]
    rfl

/-- Witness for C5: two `init` calls from a fresh Collection make
exactly one `fetchFn` invocation. -/
theorem init_is_noop_when_initialized_and_fetches_once_witness :
    (Collection.initCall ({} : CollectionState Nat Nat) {} (fun _ => [])
        (fun _ => Except.error 0)).2.length +
      (Collection.initCall
        (Collection.initCall ({} : CollectionState Nat Nat) {} (fun _ => [])
          (fun _ => Except.error 0)).1 {} (fun _ => [])
        (fun _ => Except.error 0)).2.length = 1 :=
  (init_is_noop_when_initialized_and_fetches_once ({} : CollectionState Nat Nat)
    {} {} (fun _ => []) (fun _ => []) (fun _ => Except.error 0)
    (fun _ => Except.error 0)).2 rfl

theorem Pagination.init_totalCount (p : Pagination) (a b : Option Int) :
    (p.init a b).totalCount = p.totalCount := by
  unfold Pagination.init
  dsimp only
  repeat' split
  all_goals rfl

theorem fetchMany_pagination_totalCount_none
    (calls : List (FetchOptions × (String → FMap) × (FMap → Except Err (FetchRes Item)))) :
    ∀ (st : CollectionState Item Err) (p : Pagination),
      st.pagination = some p → p.totalCount = none →
      ∃ p2, (fetchMany st calls).pagination = some p2 ∧ p2.totalCount = none ∧
        p2.canGoToNext = true := by
  induction calls with
  | nil =>
    intro st p hp ht
    exact ⟨p, hp, ht, by simp [Pagination.canGoToNext, ht]⟩
  | cons c t ih =>
    intro st p hp ht
    have hstep : fetchMany st (c :: t) =
        fetchMany (Collection.fetch st c.1 c.2.1 c.2.2).state t := rfl
    rw [hstep]
    exact ih _ (p.init c.1.page c.1.pageSize)
      (by rw [Collection.fetch_pagination_map, hp]; rfl)
      (by rw [Pagination.init_totalCount]; exact ht)

/-- Claim C10: a `fetch()` never touches the offset Pagination's
`totalCount` (only the Collection's own `totalCount` receives the
response's total); hence for a Collection whose Pagination starts with
`totalCount` unset, any sequence of fetches leaves it unset and
`canGoToNext` therefore stays true regardless of the totals the server
reported. -/
theorem fetch_never_sets_pagination_totalCount
    (st : CollectionState Item Err) (opts : FetchOptions) (q : String → FMap)
    (f : FMap → Except Err (FetchRes Item))
    (calls : List (FetchOptions × (String → FMap) × (FMap → Except Err (FetchRes Item))))
    (p : Pagination) :
    (Option.map Pagination.totalCount (Collection.fetch st opts q f).state.pagination =
      Option.map Pagination.totalCount st.pagination) ∧
    (∀ res t, f (Collection.queryParams (Collection.fetchPrep st opts q)) = Except.ok res →
      res.totalCount = some t → (Collection.fetch st opts q f).state.totalCount = t) ∧
    (st.pagination = some p → p.totalCount = none →
      ∃ p2, (fetchMany st calls).pagination = some p2 ∧ p2.totalCount = none ∧
        p2.canGoToNext = true) := by
  refine ⟨?_, ?_, fun hp ht => fetchMany_pagination_totalCount_none calls st p hp ht⟩
  · rw [Collection.fetch_pagination_map]
    cases st.pagination <;> simp [Pagination.init_totalCount]
  · intro res t hok htc
    unfold Collection.fetch
    dsimp only
    rw [hok]
    dsimp only
    rw [htc]
    dsimp only
    repeat' split
    all_goals rfl

/-- Witness for C10: a fetch whose response reports `totalCount = 25`
leaves a default-constructed Pagination's `totalCount` unset and
`canGoToNext` true. -/
theorem fetch_never_sets_pagination_totalCount_witness :
    ∃ p2, (fetchMany ({ pagination := some {} } : CollectionState Nat Nat)
        [({}, fun _ => ([] : FMap),
          fun _ => Except.ok ({ data := [1, 2], totalCount := some 25 } : FetchRes Nat))]).pagination =
        some p2 ∧ p2.totalCount = none ∧ p2.canGoToNext = true :=
  (fetch_never_sets_pagination_totalCount
    ({ pagination := some {} } : CollectionState Nat Nat) {} (fun _ => [])
    (fun _ => Except.error 0)
    [({}, fun _ => ([] : FMap),
      fun _ => Except.ok ({ data := [1, 2], totalCount := some 25 } : FetchRes Nat))]
    {}).2.2 rfl rfl
